import Mathlib

/-!
Verification of the resilient external-data access layer of the
Pólitíkus browser application: the Transport Client
(`src/services/apiClient.ts`) and the Case Repository
(`src/services/rssService.ts`).

The embedding models runtime JavaScript values flowing through the layer
as a `Json` inductive type (JS numbers appear here only as integer case
ids and HTTP statuses, modelled exactly as integers), models the
environment's reply to a `fetch` call as a `FetchBehavior`, and models
possibly-throwing asynchronous code as `Except Thrown`.
-/

/-- Runtime JSON value. `null` doubles as the TypeScript `null` (the two
are the same value at runtime: `JSON.parse "null"` returns `null`). -/
inductive Json where
  | null : Json
  | bool : Bool → Json
  | num : Int → Json
  | str : String → Json
  | arr : List Json → Json
  | obj : List (String × Json) → Json

/-- Field access `v.k` on a runtime value: defined (`some`) only on an
object that carries the key, otherwise JavaScript yields `undefined`
(`none`). Duplicate keys do not arise in the payloads modelled here. -/
def Json.getField : Json → String → Option Json
  | .obj fs, k => fs.lookup k
  | _, _ => none

/-- JavaScript falsiness of a defined value: `null`, `false`, `0` and the
empty string are falsy (`NaN` and `-0` cannot arise in the modelled
payloads). -/
def Json.isFalsy : Json → Bool
  | .null => true
  | .bool b => !b
  | .num n => n == 0
  | .str s => s == ""
  | _ => false

/-- Truthiness (`!!x`) of a possibly-`undefined` value. -/
def jsTruthy (o : Option Json) : Bool :=
  match o with
  | none => false
  | some v => !v.isFalsy

/-- One step of optional chaining `o?.k`: `undefined` and `null` receivers
give `undefined`; any other receiver is accessed with `Json.getField`. -/
def jsStep (o : Option Json) (k : String) : Option Json :=
  match o with
  | none => none
  | some Json.null => none
  | some v => v.getField k

/-- An optional-chaining path `j?.k1?.k2?...` as it appears in
`meta.data?.data?.consultationPortalCaseById?.id`. -/
def jsChain (o : Option Json) (path : List String) : Option Json :=
  path.foldl jsStep o

/-- The JavaScript `||` operator `o || dflt` applied to a
possibly-`undefined` left operand: a truthy left operand is returned,
anything falsy (including `undefined`) yields the default. -/
def jsOrElse (o : Option Json) (dflt : Json) : Json :=
  match o with
  | none => dflt
  | some v => if v.isFalsy then dflt else v

/-- The JavaScript nullish coalescing `o ?? dflt`: only `undefined` and
`null` are replaced by the default. -/
def jsNullish (o : Option Json) (dflt : Json) : Json :=
  match o with
  | none => dflt
  | some Json.null => dflt
  | some v => v

/-- An exception value (a JS `Error`), identified by its `message`. -/
structure Thrown where
  message : String

/-- The environment's reply to one `fetch` call, as observed by the
`try` block: either the `fetch` promise rejects (network failure — also
covering any other throw inside the `try` block), or an HTTP response
arrives with a `status`, a raw body text (what `response.text()` reads)
and a JSON-parse outcome for the body (what `response.json()` does:
a parsed value, or a thrown `SyntaxError` with a message). -/
inductive FetchBehavior where
  | netFail (msg : String)
  | response (status : Nat) (bodyText : String) (jsonResult : Except String Json)

/-- The `error` record of `ApiResponse` (src/types.ts lines 99-102). -/
structure ApiError where
  message : String
  body : String

/-- `ApiResponse<T>` (src/types.ts lines 95-103). `data : T | null` is a
runtime value, so it is modelled as `Json`, with `Json.null` standing for
the TypeScript `null`. -/
structure ApiResponse where
  success : Bool
  data : Json
  status : Nat
  error : Option ApiError

/-- The `response.ok` predicate of the fetch API: status in [200, 299]. -/
def statusOk (status : Nat) : Bool :=
  200 ≤ status && status ≤ 299

/-- Localized message built for a non-2xx HTTP response
(src/services/apiClient.ts lines 62 and 112). -/
def httpErrorMessage (status : Nat) : String :=
  s!"Villa í netsamskiptum við vefþjónustu (HTTP {status})."

/-- Localized message for a caught network-level failure
(src/services/apiClient.ts lines 81 and 131). -/
def networkErrorMessage : String :=
  "Ekki tókst að ná sambandi við vefþjónustu. Athugaðu netenginguna þína."

/-- Body of the `try` block shared verbatim by `ApiClient.get`
(src/services/apiClient.ts lines 49-78) and `ApiClient.post` (lines
100-127): await the fetch (a rejection propagates as a throw), then on a
non-ok status read the body text and return a failure `ApiResponse`
carrying that status, and on an ok status parse the body as JSON (a parse
failure propagates as a throw) and return a success `ApiResponse`. -/
def tryFetchJson (fb : FetchBehavior) : Except Thrown ApiResponse :=
  match fb with
  | .netFail msg => .error ⟨msg⟩
  | .response status bodyText jsonResult =>
    if !statusOk status then
      .ok { success := false, data := Json.null, status := status,
            error := some { message := httpErrorMessage status, body := bodyText } }
    else
      match jsonResult with
      | .error m => .error ⟨m⟩
      | .ok j => .ok { success := true, data := j, status := status, error := none }

/-- The `ApiResponse` built by the shared `catch` block
(src/services/apiClient.ts lines 79-88 and 129-138): sentinel status 0,
the localized network message, and the caught error's message as
diagnostic body. -/
def netFailResponse (msg : String) : ApiResponse :=
  { success := false, data := Json.null, status := 0,
    error := some { message := networkErrorMessage, body := msg } }

/-- `ApiClient.get` (src/services/apiClient.ts lines 36-89).
`endpoint` and `params` shape the proxied URL (lines 37-47, a total
string computation that cannot throw) and thereby determine which
`FetchBehavior` the environment produces; no claim inspects the URL
itself, so the URL string is not reproduced here and `fb` stands for the
environment's reply to that request. -/
def ApiClient.get (endpoint : String) (params : List (String × String))
    (fb : FetchBehavior) : Except Thrown ApiResponse :=
  match tryFetchJson fb with
  | .ok r => .ok r
  | .error e => .ok (netFailResponse e.message)

/-- `ApiClient.post` (src/services/apiClient.ts lines 97-139). `url` and
`body` determine the request (`JSON.stringify` happens inside the `try`
block, so a throw from it is absorbed into `netFail`); `fb` is the
environment's reply. The `try`/`catch` body is textually identical to
`get`'s. -/
def ApiClient.post (url : String) (body : Json)
    (fb : FetchBehavior) : Except Thrown ApiResponse :=
  match tryFetchJson fb with
  | .ok r => .ok r
  | .error e => .ok (netFailResponse e.message)

/-- The total value of a `get`/`post` call: the `try` result, with a
throw replaced by the `catch` result. -/
def runFetch (fb : FetchBehavior) : ApiResponse :=
  match tryFetchJson fb with
  | .ok r => r
  | .error e => netFailResponse e.message

theorem get_eq_ok (endpoint : String) (params : List (String × String))
    (fb : FetchBehavior) :
    ApiClient.get endpoint params fb = Except.ok (runFetch fb) := by
  unfold ApiClient.get runFetch
  cases tryFetchJson fb <;> rfl

theorem post_eq_ok (url : String) (body : Json) (fb : FetchBehavior) :
    ApiClient.post url body fb = Except.ok (runFetch fb) := by
  unfold ApiClient.post runFetch
  cases tryFetchJson fb <;> rfl

/-!
Case Repository (src/services/rssService.ts).
-/

/-- Leading base-10 digits of a character list. -/
def leadingDigits (cs : List Char) : List Char :=
  cs.takeWhile Char.isDigit

/-- Value of a list of base-10 digit characters. -/
def digitsVal (ds : List Char) : Nat :=
  ds.foldl (fun a c => a * 10 + (c.toNat - 48)) 0

/-- Optional leading sign of a numeric literal. -/
def parseSign (cs : List Char) : Bool × List Char :=
  match cs with
  | [] => (false, [])
  | c :: r =>
    if c = '-' then (true, r)
    else if c = '+' then (false, r)
    else (false, c :: r)

/-- The JavaScript call `Number.parseInt(s, 10)` combined with the
`Number.isNaN` test done right after it in `fetchCaseComments`:
skip leading whitespace, read an optional sign and then the longest
prefix of base-10 digits; `none` (NaN) when that prefix is empty,
otherwise the exact integer value of the digits (the modelled inputs are
far below the range where JS float precision would matter). -/
def parseIntTen (s : String) : Option Int :=
  let cs := s.data.dropWhile Char.isWhitespace
  let signed := parseSign cs
  let ds := leadingDigits signed.2
  if ds.isEmpty then none
  else some (if signed.1 then -(digitsVal ds : Int) else (digitsVal ds : Int))

/-- GraphQL existence-check document `GET_CASE_META`
(src/services/rssService.ts lines 24-30). -/
def GET_CASE_META : String :=
  "\nquery CaseMeta($input: ConsultationPortalCaseInput!) \x7b\n  consultationPortalCaseById(input: $input) \x7b\n    id\n  \x7d\n\x7d\n"

/-- GraphQL comments document `GET_CASE_ADVICES_MINIMAL`
(src/services/rssService.ts lines 32-41). -/
def GET_CASE_ADVICES_MINIMAL : String :=
  "\nquery CaseAdvices($input: ConsultationPortalCaseInput!) \x7b\n  consultationPortalAdviceByCaseId(input: $input) \x7b\n    id\n    participantName\n    content\n    created\n  \x7d\n\x7d\n"

/-- The GraphQL endpoint hard-coded in `postGraphQL`
(src/services/rssService.ts line 49). -/
def gqlEndpoint : String := "https://island.is/api/graphql"

/-- The `{ input: { caseId } }` variables object passed to both GraphQL
queries (src/services/rssService.ts lines 63 and 79). -/
def gqlVars (caseId : Int) : Json :=
  Json.obj [("input", Json.obj [("caseId", Json.num caseId)])]

/-- `postGraphQL` (src/services/rssService.ts lines 48-51): POST the
envelope `{ query, variables, operationName }` to the GraphQL endpoint
through the Transport Client. -/
def postGraphQL (query : String) (vars : Json) (operationName : String)
    (fb : FetchBehavior) : Except Thrown ApiResponse :=
  ApiClient.post gqlEndpoint
    (Json.obj [("query", Json.str query), ("variables", vars),
               ("operationName", Json.str operationName)]) fb

/-- Message thrown by `searchCases` on transport failure
(src/services/rssService.ts line 10). -/
def searchCasesFailMessage : String := "Gat ekki sótt málalista."

/-- `searchCases` (src/services/rssService.ts lines 7-12): GET the bulk
case page; on a failure outcome throw the localized message, otherwise
return `res.data?.cases || []`. The returned runtime value is kept as
`Json` (the unchecked cast in the source does not inspect it). -/
def searchCases (fb : FetchBehavior) : Except Thrown Json :=
  (ApiClient.get "/api/cases" [("pageSize", "1500"), ("orderBy", "LastUpdated")] fb).bind
    fun res =>
      if !res.success then .error ⟨searchCasesFailMessage⟩
      else .ok (jsOrElse (jsChain (some res.data) ["cases"]) (Json.arr []))

/-- Message thrown when `id` does not parse as a number
(src/services/rssService.ts line 57). -/
def invalidIdMessage : String := "A valid numeric case ID is required."

/-- Message thrown by `fetchCaseComments` on a transport failure of
either GraphQL call (src/services/rssService.ts lines 66 and 83). -/
def commentsFailMessage : String := "Gat ekki sótt umsagnir fyrir mál."

/-- Placeholder body for a missing or empty comment
(src/services/rssService.ts line 92). -/
def commentPlaceholder : String := "Engin athugasemd fylgdi."

/-- The internal `CaseComment` shape (src/types.ts lines 32-43) as built
by `fetchCaseComments`: `id` and `created` are copied field accesses
(possibly `undefined`, hence `Option`), `contact` and `comment` are
always defined, `attachments` is a list (always built empty here). -/
structure CaseComment where
  id : Option Json
  caseId : Int
  contact : Json
  comment : Json
  created : Option Json
  attachments : List Json

/-- The per-record mapping of src/services/rssService.ts lines 88-95:
`contact` is `a.participantName ?? ''`, `comment` is
`a.content || 'Engin athugasemd fylgdi.'`, `attachments` is `[]`. -/
def mapAdvice (caseId : Int) (a : Json) : CaseComment :=
  { id := a.getField "id"
    caseId := caseId
    contact := jsNullish (a.getField "participantName") (Json.str "")
    comment := jsOrElse (a.getField "content") (Json.str commentPlaceholder)
    created := a.getField "created"
    attachments := [] }

/-- The existence test of src/services/rssService.ts line 67:
`!!meta.data?.data?.consultationPortalCaseById?.id`. -/
def metaFound (metaData : Json) : Bool :=
  jsTruthy (jsChain (some metaData) ["data", "consultationPortalCaseById", "id"])

/-- The `items` expression of src/services/rssService.ts line 85:
`adv.data?.data?.consultationPortalAdviceByCaseId ?? []`. -/
def adviceItems (advData : Json) : Json :=
  jsNullish (jsChain (some advData)
    ["data", "consultationPortalAdviceByCaseId"]) (Json.arr [])

/-- The comments-query phase of `fetchCaseComments`
(src/services/rssService.ts lines 71-95): POST the advice query, throw
on a failure outcome, return `[]` when `items` is not a non-empty array,
otherwise map each record with `mapAdvice`. -/
def advicePhase (caseId : Int) (fbAdv : FetchBehavior) :
    Except Thrown (List CaseComment) :=
  (postGraphQL GET_CASE_ADVICES_MINIMAL (gqlVars caseId) "CaseAdvices" fbAdv).bind
    fun adv =>
      if !adv.success then .error ⟨commentsFailMessage⟩
      else
        match adviceItems adv.data with
        | Json.arr [] => .ok []
        | Json.arr xs => .ok (xs.map (mapAdvice caseId))
        | _ => .ok []

/-- The body of `fetchCaseComments` after the id has parsed
(src/services/rssService.ts lines 59-95): the existence-check block
(lines 60-69) short-circuits to `[]` when the case is not found, and
only otherwise is the comments query issued. -/
def fetchCaseCommentsChecked (caseId : Int) (fbMeta fbAdv : FetchBehavior) :
    Except Thrown (List CaseComment) :=
  (postGraphQL GET_CASE_META (gqlVars caseId) "CaseMeta" fbMeta).bind fun meta =>
    if !meta.success then .error ⟨commentsFailMessage⟩
    else if !metaFound meta.data then .ok []
    else advicePhase caseId fbAdv

/-- `fetchCaseComments` (src/services/rssService.ts lines 55-96).
`fbMeta` and `fbAdv` are the environment's replies to the existence-check
POST and the comments POST respectively (the second call is only ever
made when the existence check finds the case). -/
def fetchCaseComments (id : String) (fbMeta fbAdv : FetchBehavior) :
    Except Thrown (List CaseComment) :=
  match parseIntTen id with
  | none => .error ⟨invalidIdMessage⟩
  | some caseId => fetchCaseCommentsChecked caseId fbMeta fbAdv

/-!
Claim theorems.
-/

/-- C2: for every endpoint, parameter map, body, and every outcome of the
underlying fetch (2xx response, non-2xx response, or a thrown
network/parse error), the Transport Client operations `get` and `post`
return an `ApiResponse` value and never raise an exception to the
caller. -/
theorem C2_transport_never_raises
    (endpoint : String) (params : List (String × String))
    (url : String) (body : Json) (fb : FetchBehavior) :
    (∃ r, ApiClient.get endpoint params fb = Except.ok r) ∧
    (∃ r, ApiClient.post url body fb = Except.ok r) :=
  ⟨⟨runFetch fb, get_eq_ok endpoint params fb⟩,
   ⟨runFetch fb, post_eq_ok url body fb⟩⟩

/-- C3 counterexample: a 2xx response whose body is the JSON literal
`null` makes `get` return a success outcome whose payload is `null` —
contradicting the claim that every success outcome has a non-null
payload (the source's own `fetchCaseById` guards against exactly this
with `if (!res.data)`). -/
theorem C3_counterexample :
    ApiClient.get "/api/cases" []
        (FetchBehavior.response 200 "null" (Except.ok Json.null)) =
      Except.ok { success := true, data := Json.null, status := 200, error := none } := rfl

/-- C3 as amended: for every Outcome returned by `get` or `post`, a
success outcome has no failure record and its payload is the parsed JSON
body, which is `null` only when the 2xx body itself parsed to the JSON
literal `null`; a failure outcome has a null payload and a populated
failure record (message plus diagnostic body). -/
theorem C3_outcome_invariant
    (endpoint : String) (params : List (String × String))
    (url : String) (body : Json) (fb : FetchBehavior) (r : ApiResponse)
    (h : ApiClient.get endpoint params fb = Except.ok r ∨
         ApiClient.post url body fb = Except.ok r) :
    (r.success = true → r.error = none) ∧
    (r.success = false → r.data = Json.null ∧ ∃ e, r.error = some e) ∧
    (r.success = true → r.data = Json.null →
      ∃ status bodyText,
        fb = FetchBehavior.response status bodyText (Except.ok Json.null)) := by
  have hr : r = runFetch fb := by
    rcases h with h | h
    · exact Except.ok.inj (h.symm.trans (get_eq_ok endpoint params fb))
    · exact Except.ok.inj (h.symm.trans (post_eq_ok url body fb))
  subst hr
  cases fb with
  | netFail msg =>
    refine ⟨?_, ?_, ?_⟩ <;> simp [runFetch, tryFetchJson, netFailResponse]
  | response status bodyText jsonResult =>
    by_cases hs : statusOk status
    · cases jsonResult with
      | error m =>
        refine ⟨?_, ?_, ?_⟩ <;> simp [runFetch, tryFetchJson, hs, netFailResponse]
      | ok j =>
        refine ⟨?_, ?_, ?_⟩
        · simp [runFetch, tryFetchJson, hs]
        · simp [runFetch, tryFetchJson, hs]
        · intro _ hj
          simp [runFetch, tryFetchJson, hs] at hj
          exact ⟨status, bodyText, by rw [hj]⟩
    · refine ⟨?_, ?_, ?_⟩ <;> simp [runFetch, tryFetchJson, hs]

/-- C3 witness: a concrete 2xx response with object body satisfies the
amended invariant. -/
theorem C3_outcome_invariant_witness :
    ((({ success := true, data := Json.obj [], status := 200,
         error := none } : ApiResponse)).success = true →
      (({ success := true, data := Json.obj [], status := 200,
          error := none } : ApiResponse)).error = none) ∧
    ((({ success := true, data := Json.obj [], status := 200,
         error := none } : ApiResponse)).success = false →
      (({ success := true, data := Json.obj [], status := 200,
          error := none } : ApiResponse)).data = Json.null ∧
      ∃ e, (({ success := true, data := Json.obj [], status := 200,
               error := none } : ApiResponse)).error = some e) ∧
    ((({ success := true, data := Json.obj [], status := 200,
         error := none } : ApiResponse)).success = true →
      (({ success := true, data := Json.obj [], status := 200,
          error := none } : ApiResponse)).data = Json.null →
      ∃ status bodyText,
        FetchBehavior.response 200 "{}" (Except.ok (Json.obj [])) =
          FetchBehavior.response status bodyText (Except.ok Json.null)) :=
  C3_outcome_invariant "/api/cases" [] "u" Json.null
    (FetchBehavior.response 200 "{}" (Except.ok (Json.obj [])))
    { success := true, data := Json.obj [], status := 200, error := none }
    (Or.inl rfl)

/-- C4: a 2xx response whose body fails to parse as JSON makes `get` and
`post` return the very same failure Outcome a pure connection failure
with the same underlying error message produces — sentinel status 0 and
the localized network-failure message — so the two cases are
observationally indistinguishable to the caller. -/
theorem C4_parse_failure_like_network_failure
    (endpoint : String) (params : List (String × String))
    (url : String) (body : Json)
    (status : Nat) (bodyText msg : String)
    (h : 200 ≤ status ∧ status ≤ 299) :
    ApiClient.get endpoint params
        (FetchBehavior.response status bodyText (Except.error msg)) =
      Except.ok (netFailResponse msg) ∧
    ApiClient.post url body
        (FetchBehavior.response status bodyText (Except.error msg)) =
      Except.ok (netFailResponse msg) ∧
    (netFailResponse msg).status = 0 ∧
    (netFailResponse msg).error = some ⟨networkErrorMessage, msg⟩ ∧
    ApiClient.get endpoint params
        (FetchBehavior.response status bodyText (Except.error msg)) =
      ApiClient.get endpoint params (FetchBehavior.netFail msg) ∧
    ApiClient.post url body
        (FetchBehavior.response status bodyText (Except.error msg)) =
      ApiClient.post url body (FetchBehavior.netFail msg) := by
  have hs : statusOk status = true := by
    simp [statusOk, Bool.and_eq_true, decide_eq_true_eq]
    omega
  refine ⟨?_, ?_, rfl, rfl, ?_, ?_⟩ <;>
    simp [ApiClient.get, ApiClient.post, tryFetchJson, hs]

/-- C4 witness: a 200 response with unparseable body behaves exactly like
a connection failure. -/
theorem C4_parse_failure_like_network_failure_witness :
    (200 ≤ 200 ∧ 200 ≤ 299) ∧
    (ApiClient.get "/api/cases" []
        (FetchBehavior.response 200 "<html>" (Except.error "Unexpected token")) =
      Except.ok (netFailResponse "Unexpected token") ∧
    ApiClient.post "u" Json.null
        (FetchBehavior.response 200 "<html>" (Except.error "Unexpected token")) =
      Except.ok (netFailResponse "Unexpected token") ∧
    (netFailResponse "Unexpected token").status = 0 ∧
    (netFailResponse "Unexpected token").error =
      some ⟨networkErrorMessage, "Unexpected token"⟩ ∧
    ApiClient.get "/api/cases" []
        (FetchBehavior.response 200 "<html>" (Except.error "Unexpected token")) =
      ApiClient.get "/api/cases" [] (FetchBehavior.netFail "Unexpected token") ∧
    ApiClient.post "u" Json.null
        (FetchBehavior.response 200 "<html>" (Except.error "Unexpected token")) =
      ApiClient.post "u" Json.null (FetchBehavior.netFail "Unexpected token")) :=
  ⟨by omega,
   C4_parse_failure_like_network_failure "/api/cases" [] "u" Json.null
     200 "<html>" "Unexpected token" (by omega)⟩

/-- C5: every HTTP response with status outside [200, 299] makes `get`
and `post` return a failure Outcome carrying that exact status and the
exact raw body text as diagnostic body, with a null payload; the result
does not depend on the body's JSON-parse outcome (the body is never
parsed as the payload type — `jsonResult` is universally quantified). -/
theorem C5_http_failure_outcome
    (endpoint : String) (params : List (String × String))
    (url : String) (body : Json)
    (status : Nat) (bodyText : String) (jsonResult : Except String Json)
    (h : status < 200 ∨ 299 < status) :
    ApiClient.get endpoint params
        (FetchBehavior.response status bodyText jsonResult) =
      Except.ok { success := false, data := Json.null, status := status,
                  error := some { message := httpErrorMessage status,
                                  body := bodyText } } ∧
    ApiClient.post url body
        (FetchBehavior.response status bodyText jsonResult) =
      Except.ok { success := false, data := Json.null, status := status,
                  error := some { message := httpErrorMessage status,
                                  body := bodyText } } := by
  have hs : statusOk status = false := by
    simp [statusOk, Bool.and_eq_false_iff]
    omega
  constructor <;> simp [ApiClient.get, ApiClient.post, tryFetchJson, hs]

/-- C5 witness: a 404 with body "Not Found" yields the failure Outcome
with status 404 and that raw body, whatever the parse outcome would have
been. -/
theorem C5_http_failure_outcome_witness :
    (404 < 200 ∨ 299 < 404) ∧
    (ApiClient.get "/api/cases" []
        (FetchBehavior.response 404 "Not Found" (Except.error "nope")) =
      Except.ok { success := false, data := Json.null, status := 404,
                  error := some { message := httpErrorMessage 404,
                                  body := "Not Found" } } ∧
    ApiClient.post "u" Json.null
        (FetchBehavior.response 404 "Not Found" (Except.error "nope")) =
      Except.ok { success := false, data := Json.null, status := 404,
                  error := some { message := httpErrorMessage 404,
                                  body := "Not Found" } }) :=
  ⟨by omega,
   C5_http_failure_outcome "/api/cases" [] "u" Json.null
     404 "Not Found" (Except.error "nope") (by omega)⟩

/-- A GraphQL envelope carrying a populated `errors` array and no `data`
key, as an upstream rejection delivers it with HTTP 200. -/
def gqlErrorsOnlyEnvelope : Json :=
  Json.obj [("errors", Json.arr [Json.obj [("message", Json.str "operation rejected")]])]

/-- C1, code behavior at the failing input: an existence-check response
with HTTP status 200 whose envelope is `gqlErrorsOnlyEnvelope` (populated
`errors`, absent `data`) makes `fetchCaseComments` return the empty
sequence as a success — the code never inspects the `errors` array, so
the upstream rejection is silently indistinguishable from an absent
case, contradicting the claim (and the spec's requirement) that such an
envelope is treated as a failure. The comments query is never consulted
(its fetch here would fail outright). -/
theorem C1_errors_envelope_silently_empty :
    fetchCaseComments "42"
        (FetchBehavior.response 200 "raw" (Except.ok gqlErrorsOnlyEnvelope))
        (FetchBehavior.netFail "unreachable") = Except.ok [] := rfl

/-- Reduction of `fetchCaseComments` once the id has parsed. -/
theorem fetchCaseComments_parsed (id : String) (caseId : Int)
    (fbMeta fbAdv : FetchBehavior) (h : parseIntTen id = some caseId) :
    fetchCaseComments id fbMeta fbAdv = fetchCaseCommentsChecked caseId fbMeta fbAdv := by
  unfold fetchCaseComments
  rw [h]

/-- C6: whenever the existence check succeeds at the transport level but
reports the case absent (`consultationPortalCaseById` null, undefined,
or without an `id` field), `fetchCaseComments` returns the empty
sequence, whatever the environment would reply to the comments query
(`fbAdv` is universally quantified: the existence check
short-circuits). -/
theorem C6_absent_case_yields_empty
    (id : String) (caseId : Int) (fbMeta fbAdv : FetchBehavior) (meta : ApiResponse)
    (hid : parseIntTen id = some caseId)
    (hmeta : postGraphQL GET_CASE_META (gqlVars caseId) "CaseMeta" fbMeta =
      Except.ok meta)
    (hsucc : meta.success = true)
    (habsent :
      jsChain (some meta.data) ["data", "consultationPortalCaseById"] = none ∨
      jsChain (some meta.data) ["data", "consultationPortalCaseById"] = some Json.null ∨
      ∃ c, jsChain (some meta.data) ["data", "consultationPortalCaseById"] = some c ∧
           c.getField "id" = none) :
    fetchCaseComments id fbMeta fbAdv = Except.ok [] := by
  have hfound : metaFound meta.data = false := by
    unfold metaFound
    have hch : jsChain (some meta.data) ["data", "consultationPortalCaseById", "id"] =
        jsStep (jsChain (some meta.data) ["data", "consultationPortalCaseById"]) "id" := rfl
    rw [hch]
    rcases habsent with h1 | h1 | ⟨c, hc, hcid⟩
    · rw [h1]; rfl
    · rw [h1]; rfl
    · rw [hc]
      have hstep : jsStep (some c) "id" = none := by
        cases c <;> first | rfl | simpa [jsStep, Json.getField] using hcid
      rw [hstep]; rfl
  rw [fetchCaseComments_parsed id caseId fbMeta fbAdv hid]
  unfold fetchCaseCommentsChecked
  rw [hmeta]
  simp [Except.bind, hsucc, hfound]

/-- C6 witness: the spec's end-to-end scenario — the existence query
returns the envelope with `consultationPortalCaseById` null while the
comments call would fail outright, and `fetchCaseComments "42"` still
returns the empty sequence. -/
theorem C6_absent_case_yields_empty_witness :
    fetchCaseComments "42"
        (FetchBehavior.response 200 "raw"
          (Except.ok (Json.obj [("data",
            Json.obj [("consultationPortalCaseById", Json.null)])])))
        (FetchBehavior.netFail "down") = Except.ok [] :=
  C6_absent_case_yields_empty "42" 42
    (FetchBehavior.response 200 "raw"
      (Except.ok (Json.obj [("data",
        Json.obj [("consultationPortalCaseById", Json.null)])])))
    (FetchBehavior.netFail "down")
    { success := true,
      data := Json.obj [("data", Json.obj [("consultationPortalCaseById", Json.null)])],
      status := 200, error := none }
    (by decide) rfl rfl (Or.inr (Or.inl rfl))

/-- C7: a string that does not parse as a numeric identifier makes
`fetchCaseComments` throw the invalid-id error regardless of the
environment's replies to either network call (no network call is
consulted). -/
theorem C7_invalid_id_raises
    (id : String) (fbMeta fbAdv : FetchBehavior)
    (h : parseIntTen id = none) :
    fetchCaseComments id fbMeta fbAdv = Except.error ⟨invalidIdMessage⟩ := by
  unfold fetchCaseComments
  rw [h]

/-- C7 witness: the spec's example input "abc". -/
theorem C7_invalid_id_raises_witness :
    parseIntTen "abc" = none ∧
    fetchCaseComments "abc" (FetchBehavior.netFail "m") (FetchBehavior.netFail "a") =
      Except.error ⟨invalidIdMessage⟩ :=
  ⟨by decide,
   C7_invalid_id_raises "abc" (FetchBehavior.netFail "m") (FetchBehavior.netFail "a")
     (by decide)⟩

/-- C9: on a transport success whose payload has a missing or null
`cases` collection, `searchCases` returns the empty sequence; on a
transport failure outcome it throws the localized domain error. -/
theorem C9_searchCases_empty_or_error
    (fb : FetchBehavior) (res : ApiResponse)
    (h : ApiClient.get "/api/cases" [("pageSize", "1500"), ("orderBy", "LastUpdated")] fb =
      Except.ok res) :
    (res.success = true →
      (jsChain (some res.data) ["cases"] = none ∨
       jsChain (some res.data) ["cases"] = some Json.null) →
      searchCases fb = Except.ok (Json.arr [])) ∧
    (res.success = false →
      searchCases fb = Except.error ⟨searchCasesFailMessage⟩) := by
  have hres : res = runFetch fb :=
    Except.ok.inj (h.symm.trans (get_eq_ok "/api/cases"
      [("pageSize", "1500"), ("orderBy", "LastUpdated")] fb))
  subst hres
  unfold searchCases
  rw [get_eq_ok]
  constructor
  · intro hsucc hcases
    simp only [Except.bind, hsucc, Bool.not_true, Bool.false_eq_true, if_false]
    rcases hcases with h1 | h1 <;> simp [jsOrElse, h1, Json.isFalsy]
  · intro hfail
    simp [Except.bind, hfail]

/-- C9 witness: the spec's example payload with `cases` null returns the
empty sequence, and a connection failure throws the localized error. -/
theorem C9_searchCases_empty_or_error_witness :
    searchCases
        (FetchBehavior.response 200 "raw"
          (Except.ok (Json.obj [("cases", Json.null), ("total", Json.num 0)]))) =
      Except.ok (Json.arr []) :=
  (C9_searchCases_empty_or_error
    (FetchBehavior.response 200 "raw"
      (Except.ok (Json.obj [("cases", Json.null), ("total", Json.num 0)])))
    { success := true, data := Json.obj [("cases", Json.null), ("total", Json.num 0)],
      status := 200, error := none }
    rfl).1 rfl (Or.inr rfl)

/-- C8: on a fully successful run whose comments query yields the raw
records `xs`, `fetchCaseComments` returns exactly `xs` mapped through
the record mapping, and that mapping sends a missing submitter name to
the empty string, a missing or empty body to the fixed placeholder, the
attachments to the empty sequence, and sets `caseId` to the numeric id
parsed from the input. -/
theorem C8_advice_mapping
    (id : String) (caseId : Int) (fbMeta fbAdv : FetchBehavior)
    (meta adv : ApiResponse) (xs : List Json)
    (hid : parseIntTen id = some caseId)
    (hmeta : postGraphQL GET_CASE_META (gqlVars caseId) "CaseMeta" fbMeta =
      Except.ok meta)
    (hmsucc : meta.success = true)
    (hfound : metaFound meta.data = true)
    (hadv : postGraphQL GET_CASE_ADVICES_MINIMAL (gqlVars caseId) "CaseAdvices" fbAdv =
      Except.ok adv)
    (hasucc : adv.success = true)
    (hitems : adviceItems adv.data = Json.arr xs) :
    fetchCaseComments id fbMeta fbAdv = Except.ok (xs.map (mapAdvice caseId)) ∧
    ∀ a ∈ xs,
      (mapAdvice caseId a).caseId = caseId ∧
      (mapAdvice caseId a).attachments = [] ∧
      (a.getField "participantName" = none →
        (mapAdvice caseId a).contact = Json.str "") ∧
      ((a.getField "content" = none ∨ a.getField "content" = some (Json.str "")) →
        (mapAdvice caseId a).comment = Json.str commentPlaceholder) := by
  constructor
  · rw [fetchCaseComments_parsed id caseId fbMeta fbAdv hid]
    unfold fetchCaseCommentsChecked
    rw [hmeta]
    simp only [Except.bind, hmsucc, hfound, Bool.not_true, Bool.false_eq_true, if_false]
    unfold advicePhase
    rw [hadv]
    simp only [Except.bind, hasucc, Bool.not_true, Bool.false_eq_true, if_false]
    rw [hitems]
    cases xs <;> rfl
  · intro a _
    refine ⟨rfl, rfl, ?_, ?_⟩
    · intro h
      simp [mapAdvice, jsNullish, h]
    · intro h
      rcases h with h | h <;> simp [mapAdvice, jsOrElse, h, Json.isFalsy]

/-- C8 witness: a case found by the existence check whose comments query
returns one record carrying neither `participantName` nor `content`;
the mapped comment has empty contact, the placeholder body, caseId 42
and no attachments. -/
theorem C8_advice_mapping_witness :
    fetchCaseComments "42"
        (FetchBehavior.response 200 "raw"
          (Except.ok (Json.obj [("data",
            Json.obj [("consultationPortalCaseById", Json.obj [("id", Json.num 42)])])])))
        (FetchBehavior.response 200 "raw"
          (Except.ok (Json.obj [("data",
            Json.obj [("consultationPortalAdviceByCaseId",
              Json.arr [Json.obj [("id", Json.num 7),
                                  ("created", Json.str "2024-01-01")]])])])))
      = Except.ok
          [{ id := some (Json.num 7), caseId := 42, contact := Json.str "",
             comment := Json.str commentPlaceholder,
             created := some (Json.str "2024-01-01"), attachments := [] }] :=
  (C8_advice_mapping "42" 42
    (FetchBehavior.response 200 "raw"
      (Except.ok (Json.obj [("data",
        Json.obj [("consultationPortalCaseById", Json.obj [("id", Json.num 42)])])])))
    (FetchBehavior.response 200 "raw"
      (Except.ok (Json.obj [("data",
        Json.obj [("consultationPortalAdviceByCaseId",
          Json.arr [Json.obj [("id", Json.num 7),
                              ("created", Json.str "2024-01-01")]])])])))
    { success := true,
      data := Json.obj [("data",
        Json.obj [("consultationPortalCaseById", Json.obj [("id", Json.num 42)])])],
      status := 200, error := none }
    { success := true,
      data := Json.obj [("data",
        Json.obj [("consultationPortalAdviceByCaseId",
          Json.arr [Json.obj [("id", Json.num 7),
                              ("created", Json.str "2024-01-01")]])])],
      status := 200, error := none }
    [Json.obj [("id", Json.num 7), ("created", Json.str "2024-01-01")]]
    (by decide) rfl rfl rfl rfl rfl rfl).1

/-- A base-10 digit is not counted as whitespace. -/
theorem digit_not_whitespace (c : Char) (h : c.isDigit = true) :
    c.isWhitespace = false := by
  unfold Char.isWhitespace
  have h1 : c ≠ ' ' := by rintro rfl; exact absurd h (by decide)
  have h2 : c ≠ '\t' := by rintro rfl; exact absurd h (by decide)
  have h3 : c ≠ '\x0d' := by rintro rfl; exact absurd h (by decide)
  have h4 : c ≠ '\n' := by rintro rfl; exact absurd h (by decide)
  simp [h1, h2, h3, h4]

theorem digit_ne_dash (c : Char) (h : c.isDigit = true) : c ≠ '-' := by
  rintro rfl; exact absurd h (by decide)

theorem digit_ne_plus (c : Char) (h : c.isDigit = true) : c ≠ '+' := by
  rintro rfl; exact absurd h (by decide)

theorem takeWhile_digits_append (ds : List Char) (c : Char) (rest : List Char)
    (hds : ∀ d ∈ ds, d.isDigit = true) (hc : c.isDigit = false) :
    (ds ++ c :: rest).takeWhile Char.isDigit = ds := by
  induction ds with
  | nil => simp [List.takeWhile_cons, hc]
  | cons d ds ih =>
    have hd : d.isDigit = true := hds d (by simp)
    simp only [List.cons_append, List.takeWhile_cons, hd, if_true]
    rw [ih (fun e he => hds e (by simp [he]))]

theorem takeWhile_digits_all (ds : List Char)
    (hds : ∀ d ∈ ds, d.isDigit = true) :
    ds.takeWhile Char.isDigit = ds := by
  induction ds with
  | nil => rfl
  | cons d ds ih =>
    have hd : d.isDigit = true := hds d (by simp)
    simp only [List.takeWhile_cons, hd, if_true]
    rw [ih (fun e he => hds e (by simp [he]))]

theorem dropWhile_ws_digit_head (d : Char) (l : List Char) (hd : d.isDigit = true) :
    (d :: l).dropWhile Char.isWhitespace = d :: l := by
  rw [List.dropWhile_cons, if_neg]
  simp [digit_not_whitespace d hd]

theorem parseSign_digit_head (d : Char) (l : List Char) (hd : d.isDigit = true) :
    parseSign (d :: l) = (false, d :: l) := by
  show (if d = '-' then (true, l)
        else if d = '+' then (false, l) else (false, d :: l)) = (false, d :: l)
  rw [if_neg (digit_ne_dash d hd), if_neg (digit_ne_plus d hd)]

/-- `parseIntTen` on a string that starts with a non-empty digit run:
when the digit-taking stops exactly at the run's end, the value is the
exact integer value of that run. -/
theorem parseIntTen_mk (ds tail : List Char)
    (hne : ds ≠ []) (hds : ∀ d ∈ ds, d.isDigit = true)
    (htake : (ds ++ tail).takeWhile Char.isDigit = ds) :
    parseIntTen (String.mk (ds ++ tail)) = some ((digitsVal ds : Int)) := by
  obtain ⟨d, ds', rfl⟩ : ∃ d ds', ds = d :: ds' := by
    cases ds with
    | nil => exact absurd rfl hne
    | cons d ds' => exact ⟨d, ds', rfl⟩
  have hd : d.isDigit = true := hds d (by simp)
  have hdata : (String.mk ((d :: ds') ++ tail)).data = d :: (ds' ++ tail) := rfl
  have htake' : (d :: (ds' ++ tail)).takeWhile Char.isDigit = d :: ds' := by
    simpa using htake
  unfold parseIntTen leadingDigits
  rw [hdata]
  simp only [dropWhile_ws_digit_head d (ds' ++ tail) hd,
             parseSign_digit_head d (ds' ++ tail) hd, htake']
  simp

/-- Every run of `fetchCaseCommentsChecked` either throws the
comments-failure message or returns a list. -/
theorem checked_result_cases (caseId : Int) (fbMeta fbAdv : FetchBehavior) :
    fetchCaseCommentsChecked caseId fbMeta fbAdv = Except.error ⟨commentsFailMessage⟩ ∨
    ∃ l, fetchCaseCommentsChecked caseId fbMeta fbAdv = Except.ok l := by
  unfold fetchCaseCommentsChecked advicePhase postGraphQL
  rw [post_eq_ok, post_eq_ok]
  simp only [Except.bind]
  split
  · exact Or.inl rfl
  · split
    · exact Or.inr ⟨[], rfl⟩
    · split
      · exact Or.inl rfl
      · split
        · exact Or.inr ⟨[], rfl⟩
        · exact Or.inr ⟨_, rfl⟩
        · exact Or.inr ⟨[], rfl⟩

theorem checked_ne_invalidId (caseId : Int) (fbMeta fbAdv : FetchBehavior) :
    fetchCaseCommentsChecked caseId fbMeta fbAdv ≠ Except.error ⟨invalidIdMessage⟩ := by
  rcases checked_result_cases caseId fbMeta fbAdv with h | ⟨l, h⟩ <;> rw [h]
  · intro hcontra
    injection hcontra with h'
    injection h' with h''
    exact absurd h'' (by decide)
  · exact fun hcontra => Except.noConfusion hcontra

/-- C10: an input made of a non-empty digit run followed by a non-digit
character (and anything after it) is not rejected: `parseIntTen` yields
exactly the digit run's value, the whole call behaves identically to the
call on the digit run alone, and the invalid-id error is never thrown. -/
theorem C10_digit_head_input_equivalent
    (ds rest : List Char) (c : Char) (fbMeta fbAdv : FetchBehavior)
    (hne : ds ≠ []) (hds : ∀ d ∈ ds, d.isDigit = true) (hc : c.isDigit = false) :
    parseIntTen (String.mk (ds ++ c :: rest)) = some ((digitsVal ds : Int)) ∧
    fetchCaseComments (String.mk (ds ++ c :: rest)) fbMeta fbAdv =
      fetchCaseComments (String.mk ds) fbMeta fbAdv ∧
    fetchCaseComments (String.mk (ds ++ c :: rest)) fbMeta fbAdv ≠
      Except.error ⟨invalidIdMessage⟩ := by
  have h1 : parseIntTen (String.mk (ds ++ c :: rest)) = some ((digitsVal ds : Int)) :=
    parseIntTen_mk ds (c :: rest) hne hds (takeWhile_digits_append ds c rest hds hc)
  have h2 : parseIntTen (String.mk ds) = some ((digitsVal ds : Int)) := by
    have h3 := parseIntTen_mk ds [] hne hds
      (by simpa using takeWhile_digits_all ds hds)
    simpa using h3
  refine ⟨h1, ?_, ?_⟩
  · rw [fetchCaseComments_parsed _ _ fbMeta fbAdv h1,
        fetchCaseComments_parsed _ _ fbMeta fbAdv h2]
  · rw [fetchCaseComments_parsed _ _ fbMeta fbAdv h1]
    exact checked_ne_invalidId ((digitsVal ds : Int)) fbMeta fbAdv

/-- C10 witness: "42abc" parses to 42, behaves exactly like "42", and
does not raise the invalid-id error. -/
theorem C10_digit_head_input_equivalent_witness :
    (['4', '2'] : List Char) ≠ [] ∧
    (parseIntTen (String.mk (['4', '2'] ++ 'a' :: ['b', 'c'])) =
      some ((digitsVal ['4', '2'] : Int)) ∧
    fetchCaseComments (String.mk (['4', '2'] ++ 'a' :: ['b', 'c']))
        (FetchBehavior.netFail "m") (FetchBehavior.netFail "a") =
      fetchCaseComments (String.mk ['4', '2'])
        (FetchBehavior.netFail "m") (FetchBehavior.netFail "a") ∧
    fetchCaseComments (String.mk (['4', '2'] ++ 'a' :: ['b', 'c']))
        (FetchBehavior.netFail "m") (FetchBehavior.netFail "a") ≠
      Except.error ⟨invalidIdMessage⟩) :=
  ⟨by decide,
   C10_digit_head_input_equivalent ['4', '2'] ['b', 'c'] 'a'
     (FetchBehavior.netFail "m") (FetchBehavior.netFail "a")
     (by decide) (by decide) (by decide)⟩
